import Mathlib

set_option autoImplicit false

/-!
Verification of the xPloreSystem purge-belt Klipper modules.

Shallow embedding of the two source files
`xPloreCore/PurgeBelt/Software/Klipper/manual_extruder_stepper.py` and
`xPloreCore/PurgeBelt/Software/Klipper/purgebelt.py`.

Conventions:
* Kinematic-model handles ("stepper kinematics"), trapezoid queues ("trapq")
  and stepper channels are identified by natural-number ids; only their
  identity matters to the claims under verification.
* Python exceptions are modelled with `Except`; the error value carries the
  state of the object at the moment the exception is raised, so that claims
  about what has (or has not) been mutated on an error path are expressible.
* Fallible lookups of peer objects (`printer.lookup_object`) are modelled by
  an immutable environment of partial maps: the registry is an external
  collaborator and is not mutated by the code under verification.
-/

namespace MES

/-- Immutable per-object values of `ManualExtruderStepper.__init__`:
`self.trapq` (own motion queue), `self.sk_extruder`, `self.linked_move_sk`
and `self.alt_stepper_sks` (the manual kinematics saved for each channel of
the initial stepper list, in order). -/
structure Cfg where
  trapq : ℕ
  skExtruder : ℕ
  linkedMoveSk : ℕ
  altStepperSks : List ℕ

/-- The part of a `PrinterExtruder` object read by `sync_to_extruder`:
`extruder.last_position` and `extruder.get_trapq()`. -/
structure Extruder where
  lastPosition : ℚ
  trapq : ℕ

/-- External lookups performed by the sessions: the active extruder on the
toolhead, lookups of `PrinterExtruder` objects and `ManualStepper` objects by
name, and `self.get_endstop` resolution. `manualSteppers` maps a manual
stepper name to the id of its `.stepper` channel; `endstops` maps an endstop
name to an endstop id. -/
structure Env where
  activeExtruderName : String
  activeExtruderStepper : ℕ
  extruders : String → Option Extruder
  manualSteppers : String → Option ℕ
  endstops : String → Option ℕ

/-- Mutable state of a `ManualExtruderStepper` (and of the channel objects it
touches). `chanSk`, `chanTrapq`, `chanPos` give each channel's current
kinematics handle, trapq binding and commanded position.
`endstopSteppers` lists the channels attached to each endstop id
(`endstop.add_stepper`). -/
structure St where
  steppers : List ℕ
  railSteppers : List ℕ
  railTrapq : ℕ
  railPos : ℚ
  chanSk : ℕ → ℕ
  chanTrapq : ℕ → ℕ
  chanPos : ℕ → ℚ
  motionQueue : Option String
  syncedExtruderName : Option String
  endstopSteppers : ℕ → List ℕ

inductive Err
  | extruderNotActive
  | extruderNotFound
  | stepperNotFound
  | endstopNotFound
  | indexError
  | bindingConflict
  | bodyFailure
deriving DecidableEq, Repr

/-- Results of stateful operations: an error carries the state at the moment
the exception left the function. -/
abbrev Res := Except (Err × St) St

/-- `ManualExtruderStepper._set_manual_kinematics`: zip the current stepper
list with the saved `alt_stepper_sks` and re-apply the manual kinematics to
each channel, then rebind the rail to the stepper's own trapq. -/
def set_manual_kinematics (cfg : Cfg) (s : St) : St :=
  { s with
    chanSk := (s.steppers.zip cfg.altStepperSks).foldl
      (fun f p => Function.update f p.1 p.2) s.chanSk
    railTrapq := cfg.trapq }

/-- `sync_to_extruder(None)`: flush (a host-side effect with no modelled
state), restore the manual kinematics and clear the binding. -/
def sync_none (cfg : Cfg) (s : St) : St :=
  { set_manual_kinematics cfg s with
    motionQueue := none
    syncedExtruderName := none }

/-- `ManualExtruderStepper.sync_to_extruder`: `None` restores manual mode;
a name is resolved to a `PrinterExtruder` (error if absent), every owned
channel gets the extruder kinematics, the rail is repositioned and rebound to
the extruder's trapq, and the binding is recorded. -/
def sync_to_extruder (cfg : Cfg) (env : Env) (name : Option String) (s : St) : Res :=
  match name with
  | none => .ok (sync_none cfg s)
  | some n =>
    match env.extruders n with
    | none => .error (.extruderNotFound, s)
    | some ex =>
      .ok { s with
            chanSk := s.steppers.foldl
              (fun f c => Function.update f c cfg.skExtruder) s.chanSk
            railPos := ex.lastPosition
            railTrapq := ex.trapq
            motionQueue := some n
            syncedExtruderName := some n }

/-- `ManualExtruderStepper.is_synced`. -/
def is_synced (s : St) : Bool := s.motionQueue != none

/-- The values the session saves on entry: `prev_manual_steppers`,
`prev_manual_rail_steppers`, the borrowed channel's `prev_..._sk` and
`prev_..._trapq`, and the saved `manual_stepper_mq`. -/
structure Saved where
  prevSteppers : List ℕ
  prevRailSteppers : List ℕ
  prevSk : ℕ
  prevTrapq : ℕ
  mq : Option String

/-- Entry phase shared by `_with_linked_extruder` (lines 144-170) and
`_with_linked_stepper` (lines 200-225); the two bodies are line-identical
apart from the borrowed channel's origin, which is resolved by each wrapper
before this code runs. Returns the saved context and the mid state handed to
the wrapped operation. An error raised here (index error on an empty stepper
list, or endstop-not-found) occurs before the `try`, so it propagates with
the mutations already applied and no restoration. -/
def link_entry (cfg : Cfg) (env : Env) (chan : ℕ) (endstopName : Option String)
    (s : St) : Except (Err × St) (Saved × St) :=
  let mq := s.motionQueue
  let manualSteppers := s.steppers
  let s1 := sync_none cfg s
  let prevSteppers := s1.steppers
  let prevRail := s1.railSteppers
  let s2 := { s1 with
              steppers := s1.steppers ++ [chan]
              railSteppers := s1.railSteppers ++ [chan] }
  let prevSk := s2.chanSk chan
  let prevTq := s2.chanTrapq chan
  let s3 := { s2 with
              chanSk := Function.update s2.chanSk chan cfg.linkedMoveSk
              chanTrapq := Function.update s2.chanTrapq chan cfg.trapq }
  match manualSteppers with
  | [] => .error (.indexError, s3)
  | m0 :: _ =>
    let s4 := { s3 with chanPos := Function.update s3.chanPos chan (s3.chanPos m0) }
    let saved : Saved := ⟨prevSteppers, prevRail, prevSk, prevTq, mq⟩
    match endstopName with
    | none => .ok (saved, s4)
    | some nm =>
      match env.endstops nm with
      | some es =>
        .ok (saved, { s4 with
          endstopSteppers :=
            Function.update s4.endstopSteppers es (s4.endstopSteppers es ++ [chan]) })
      | none => .error (.endstopNotFound, s4)

/-- The `finally` block of both sessions: restore the stepper lists, the
borrowed channel's kinematics and trapq, and re-apply the saved binding. -/
def link_restore (cfg : Cfg) (env : Env) (chan : ℕ) (sv : Saved) (t : St) : Res :=
  sync_to_extruder cfg env sv.mq
    { t with
      steppers := sv.prevSteppers
      railSteppers := sv.prevRailSteppers
      chanSk := Function.update t.chanSk chan sv.prevSk
      chanTrapq := Function.update t.chanTrapq chan sv.prevTrapq }

/-- The full session once the borrowed channel has been resolved: entry, then
the wrapped operation inside `try`, then the `finally` restoration on both
the success and the failure path; a body error is re-raised after the
restoration completes. -/
def link_session (cfg : Cfg) (env : Env) (chan : ℕ) (endstopName : Option String)
    (body : St → Res) (s : St) : Res :=
  match link_entry cfg env chan endstopName s with
  | .error e => .error e
  | .ok (sv, smid) =>
    match body smid with
    | .ok t =>
      link_restore cfg env chan sv t
    | .error (e, t) =>
      match link_restore cfg env chan sv t with
      | .ok t2 => .error (e, t2)
      | .error e2 => .error e2

/-- `ManualExtruderStepper._with_linked_extruder`: reject a non-active
extruder name before any mutation, then borrow the active extruder's stepper
channel for the session. -/
def with_linked_extruder (cfg : Cfg) (env : Env) (extruderName : String)
    (endstopName : Option String) (body : St → Res) (s : St) : Res :=
  if extruderName ≠ env.activeExtruderName then .error (.extruderNotActive, s)
  else link_session cfg env env.activeExtruderStepper endstopName body s

/-- `ManualExtruderStepper._with_linked_stepper`: resolve the named manual
stepper (error before any mutation if it is absent or of the wrong class),
then run the session with its channel. -/
def with_linked_stepper (cfg : Cfg) (env : Env) (stepperName : String)
    (endstopName : Option String) (body : St → Res) (s : St) : Res :=
  match env.manualSteppers stepperName with
  | none => .error (.stepperNotFound, s)
  | some chan => link_session cfg env chan endstopName body s

/-- The four direct manual operations guarded in
`ManualExtruderStepper.do_enable / do_set_position / do_move /
do_homing_move`, with the arguments each passes through. -/
inductive ManualOp
  | enable (flag : Bool)
  | setPosition (setpos : ℚ)
  | move (movepos speed accel : ℚ) (sync : Bool)
  | homingMove (movepos speed accel : ℚ) (triggered checkTrigger : Bool)
deriving DecidableEq, Repr

/-- Modelled from the spec: the superclass implementations
`ManualMhStepper.do_enable / do_set_position / do_move / do_homing_move`
live in the repository's `manual_mh_stepper.py`, which is not under `src/`.
Per the spec (§4.1) each operation "delegates to the underlying channel(s)";
the model records the delegated call and lets the position-mutating
operations set the commanded position of every owned channel. -/
def super_do_op (s : St) (op : ManualOp) : St × ManualOp :=
  match op with
  | .enable f => (s, .enable f)
  | .setPosition p =>
    ({ s with chanPos := fun c => if c ∈ s.steppers then p else s.chanPos c }, op)
  | .move p sp a sy =>
    ({ s with chanPos := fun c => if c ∈ s.steppers then p else s.chanPos c }, .move p sp a sy)
  | .homingMove p sp a tr ck =>
    ({ s with chanPos := fun c => if c ∈ s.steppers then p else s.chanPos c },
     .homingMove p sp a tr ck)

/-- `ManualExtruderStepper.do_enable / do_set_position / do_move /
do_homing_move`: each starts with `assert self.motion_queue is None` and only
then delegates to the superclass implementation; a failed assertion raises
with the object untouched. The assertion failure is the *binding-conflict*
rejection of the spec. -/
def do_op (s : St) (op : ManualOp) : Except (Err × St) (St × ManualOp) :=
  if s.motionQueue ≠ none then .error (.bindingConflict, s)
  else .ok (super_do_op s op)

/-- `ManualExtruderStepper.cmd_MANUAL_EXTRUDER_STEPPER`, guard only: the
command raises `"Cannot manual move: stepper synced to motion queue"` when a
motion-queue binding is active, before reading any parameter. -/
def cmd_manual_extruder_stepper_guard (s : St) : Except (Err × St) St :=
  if s.motionQueue ≠ none then .error (.bindingConflict, s)
  else .ok s

end MES

namespace PB

/-- The `[purgebelt]` configuration values read in `PurgeBelt.__init__`, plus
the borrowed `purge_belt_stepper.velocity` / `.accel` defaults used by
`purge_belt_stepper.do_move`. -/
structure Cfg where
  park_pos_x : ℝ
  park_pos_y : ℝ
  park_pos_z : ℝ
  purge_belt_z : ℝ
  filament_diameter : ℝ
  purge_length : ℝ
  purged_length_section_max : ℝ
  purge_layer_height : ℝ
  purge_extrusion_width : ℝ
  purge_belt_outfeed_length : ℝ
  purge_belt_retract_travel_dist : ℝ
  extrude_speed : ℝ
  travel_speed : ℝ
  approach_speed : ℝ
  retract_speed : ℝ
  retract_dist : ℝ
  pause_time : ℝ
  pause_qty : ℤ
  return_to_start_pos : Bool
  max_flow_rate : ℝ
  flow_rate : ℝ
  belt_velocity : ℝ
  belt_accel : ℝ

/-- A g-code position vector (`gcode_move.last_position`): indices 0-3 are
X, Y, Z and the extrusion axis; `extra n` is the coordinate at index `n + 4`
(added axes registered through `GCODE_AXIS`). -/
structure GPos where
  x : ℝ
  y : ℝ
  z : ℝ
  e : ℝ
  extra : ℕ → ℝ

/-- Read the coordinate at a list index (`last_position[i]`). -/
def GPos.get (p : GPos) : ℕ → ℝ
  | 0 => p.x
  | 1 => p.y
  | 2 => p.z
  | 3 => p.e
  | n + 4 => p.extra n

/-- Write the coordinate at a list index (`last_position[i] = v`). -/
def GPos.set (p : GPos) : ℕ → ℝ → GPos
  | 0, v => { p with x := v }
  | 1, v => { p with y := v }
  | 2, v => { p with z := v }
  | 3, v => { p with e := v }
  | n + 4, v => { p with extra := Function.update p.extra n v }

/-- Externally visible commands issued by the purge-belt code, in program
order: `toolhead.move`, `toolhead.wait_moves`, `purge_belt_stepper.do_move`
(with `sync=True`), `toolhead.dwell`, and `gcode.run_script_from_command`. -/
inductive Ev
  | thMove (pos : GPos) (speed : ℝ)
  | waitMoves
  | beltMove (movepos speed accel : ℝ)
  | dwell (t : ℝ)
  | runScript (cmd : String)

/-- Mutable state touched by `PurgeBelt`: the sync flag, the purge-belt
stepper's first stepper's rotation distance and the saved pre-sync value,
`self.ea_index`, the stepper's currently registered extra g-code axis letter,
`gcode_move.axis_map`, the belt stepper's commanded position,
`gcode_move.last_position`, `self.init_pos`, the stray attribute
`self.gcode.last_position` written by `restore_pos`, and the toolhead
position returned by `toolhead.get_position()`. -/
structure St where
  sync_status : Bool
  rotationDist : ℝ
  lastRotationDist : ℝ
  eaIndex : Option ℕ
  eaLetter : Option Char
  axisMap : List (Char × ℕ)
  beltPos : ℝ
  lastPosition : GPos
  initPos : GPos
  gcodeObjLastPosition : Option GPos
  toolheadPos : GPos

inductive Err
  | noFreeAxisLabel
  | keyError
  | typeError
deriving DecidableEq, Repr

/-- The filament cross-section area `(math.pi / 4) * filament_diameter ** 2`,
an expression the source repeats at each use site. -/
noncomputable def cross_section_area (cfg : Cfg) : ℝ :=
  (Real.pi / 4) * cfg.filament_diameter ^ 2

/-- `PurgeBelt.calc_purge_belt_rotation_distance_synced`: read the current
rotation distance and divide it by the flow-correction factor. -/
noncomputable def calc_purge_belt_rotation_distance_synced
    (cfg : Cfg) (layer_height extrusion_width : ℝ) (s : St) : ℝ :=
  let extruder_flow_area := cross_section_area cfg
  let purge_belt_flow_correction_factor :=
    extruder_flow_area / (layer_height * extrusion_width)
  s.rotationDist / purge_belt_flow_correction_factor

/-- `string.ascii_uppercase` as a list of characters. -/
def ascii_uppercase : List Char := "ABCDEFGHIJKLMNOPQRSTUVWXYZ".toList

/-- The scan loop of `PurgeBelt.get_available_ea_label`: skip the reserved
letters `X Y Z E F N` and any letter already used as an axis-map key, and
return the first remaining letter; `none` models the fall-through to
`raise ValueError("No free axis label found")`. -/
def find_ea_label (used : List Char) : List Char → Option Char
  | [] => none
  | c :: rest =>
    if c = 'X' ∨ c = 'Y' ∨ c = 'Z' ∨ c = 'E' ∨ c = 'F' ∨ c = 'N' then
      find_ea_label used rest
    else if c ∈ used then find_ea_label used rest
    else some c

/-- `PurgeBelt.get_available_ea_label` over the current axis map. -/
def get_available_ea_label (axisMap : List (Char × ℕ)) : Option Char :=
  find_ea_label (axisMap.map Prod.fst) ascii_uppercase

/-- `PurgeBelt.get_ea_index`: `gcode_move.axis_map[ea]`; `none` models the
dictionary `KeyError`. -/
def get_ea_index (axisMap : List (Char × ℕ)) (ea : Char) : Option ℕ :=
  axisMap.lookup ea

/-- Modelled from the spec: the effect of
`MANUAL_STEPPER STEPPER=purge_belt_stepper GCODE_AXIS=<letter>`.  The
implementation lives in the repository's `manual_mh_stepper.py`, which is
not under `src/`.  Per the spec (§4.3) the remap command allocates the given
free coordinate letter for the stepper: the model records it in
`gcode_move.axis_map` with the next list index and remembers it as the
stepper's registered letter. -/
def register_gcode_axis (ea : Char) (s : St) : St :=
  { s with
    axisMap := s.axisMap ++ [(ea, s.axisMap.length)]
    eaLetter := some ea }

/-- Modelled from the spec: the effect of
`MANUAL_STEPPER STEPPER=purge_belt_stepper GCODE_AXIS=` (empty letter), from
the same missing `manual_mh_stepper.py`.  Per the spec (§4.3) this releases
the letter allocated at sync: the model removes the stepper's registered
letter from `gcode_move.axis_map`. -/
def unregister_gcode_axis (s : St) : St :=
  match s.eaLetter with
  | some ea =>
    { s with
      axisMap := s.axisMap.filter (fun p => p.1 ≠ ea)
      eaLetter := none }
  | none => s

/-- `PurgeBelt.sync_purge_belt`: a no-op while already synced; otherwise save
the current rotation distance, rescale it by the flow-correction factor,
allocate a free axis letter (`ValueError` when none is free — raised after
the rotation distance has been rescaled), issue the remap command, look up
the letter's index and set the sync flag. -/
noncomputable def sync_purge_belt (cfg : Cfg) (layer_height extrusion_width : ℝ)
    (s : St) : Except (Err × St) (St × List Ev) :=
  if s.sync_status then .ok (s, [])
  else
    let s1 := { s with lastRotationDist := s.rotationDist }
    let s2 := { s1 with
      rotationDist :=
        calc_purge_belt_rotation_distance_synced cfg layer_height extrusion_width s1 }
    match get_available_ea_label s2.axisMap with
    | none => .error (.noFreeAxisLabel, s2)
    | some ea =>
      let s3 := register_gcode_axis ea s2
      let ev := Ev.runScript
        ("MANUAL_STEPPER STEPPER=purge_belt_stepper GCODE_AXIS=" ++ ea.toString)
      match get_ea_index s3.axisMap ea with
      | none => .error (.keyError, s3)
      | some i => .ok ({ s3 with eaIndex := some i, sync_status := true }, [ev])

/-- `PurgeBelt.unsync_purge_belt`: a no-op while not synced; otherwise issue
the release command, restore the saved rotation distance and clear the
flag. -/
def unsync_purge_belt (s : St) : St × List Ev :=
  if s.sync_status then
    let ev := Ev.runScript ("MANUAL_STEPPER STEPPER=purge_belt_stepper GCODE_AXIS=")
    let s1 := unregister_gcode_axis s
    ({ s1 with rotationDist := s1.lastRotationDist, sync_status := false }, [ev])
  else (s, [])

/-- The `PURGE_VOLUME` / `PURGE_LENGTH` derivation of `cmd_PURGE_WITH_BELT`
(lines 138-143), returning `(purge_length, purge_volume)`.  Note the source
uses Python truthiness (`if purge_volume:`), so a supplied volume of `0`
falls through to the length branch. -/
noncomputable def derive_length_volume (cfg : Cfg)
    (volumeReq lengthReq : Option ℝ) : ℝ × ℝ :=
  match volumeReq with
  | some v =>
    if v = 0 then
      let len := lengthReq.getD cfg.purge_length
      (len, cross_section_area cfg * len)
    else (v / cross_section_area cfg, v)
  | none =>
    let len := lengthReq.getD cfg.purge_length
    (len, cross_section_area cfg * len)

/-- The `PAUSE_QTY` derivation of `cmd_PURGE_WITH_BELT` (lines 145-149): an
explicit request wins; otherwise `int(math.ceil(purged_length / max))` when
the purged length exceeds the per-segment maximum, else the configured
default. -/
noncomputable def derive_pause_qty (cfg : Cfg) (pauseReq : Option ℤ)
    (purged_length : ℝ) : ℤ :=
  match pauseReq with
  | none =>
    if purged_length > cfg.purged_length_section_max then
      ⌈purged_length / cfg.purged_length_section_max⌉
    else cfg.pause_qty
  | some p => p

/-- The `FLOW_RATE` / `EXTRUSION_SPEED` derivation of `cmd_PURGE_WITH_BELT`
(lines 150-162), returning `(flow_rate, extrusion_speed)`.  In the
`EXTRUSION_SPEED` branch the source overwrites the value it just read with
the configured `extrude_speed` before using it. -/
noncomputable def derive_flow (cfg : Cfg) (flowReq speedReq : Option ℝ) : ℝ × ℝ :=
  match flowReq with
  | some fr0 =>
    let fr := if fr0 > cfg.max_flow_rate then cfg.max_flow_rate else fr0
    (fr, fr / cross_section_area cfg)
  | none =>
    match speedReq with
    | some _ =>
      let es := cfg.extrude_speed
      (es * cross_section_area cfg, es)
    | none => (cfg.flow_rate, cfg.flow_rate / cross_section_area cfg)

/-- `PurgeBelt.get_init_toolhead_pos`: read the toolhead position and copy it
into `gcode_move.last_position`, returning it. -/
def get_init_toolhead_pos (s : St) : GPos × St :=
  (s.toolheadPos, { s with lastPosition := s.toolheadPos })

/-- `PurgeBelt.move_to_park_pos`: record the initial position, replace
`gcode_move.last_position` with the four-entry park position (keeping the
extrusion coordinate; the fresh Python list has no extra-axis entries, which
the model renders as zeroed extras), and issue the travel move. -/
noncomputable def move_to_park_pos (cfg : Cfg) (s : St) : St × List Ev :=
  let (init, s0) := get_init_toolhead_pos s
  let s1 := { s0 with initPos := init }
  let park : GPos :=
    { x := cfg.park_pos_x, y := cfg.park_pos_y, z := cfg.park_pos_z
      e := init.e, extra := fun _ => 0 }
  ({ s1 with lastPosition := park },
   [Ev.thMove park cfg.travel_speed, Ev.waitMoves])

/-- `PurgeBelt.restore_pos`: when `return_to_start_pos` is set, carry the
accumulated extrusion coordinate into `self.init_pos`, assign that to the
(otherwise unused) attribute `self.gcode.last_position` — the source writes
`self.gcode`, not `self.gcode_move` — and then move the toolhead to
`self.gcode_move.last_position`. -/
noncomputable def restore_pos (cfg : Cfg) (s : St) : St × List Ev :=
  if cfg.return_to_start_pos then
    let init' := { s.initPos with e := s.lastPosition.e }
    let s1 := { s with initPos := init', gcodeObjLastPosition := some init' }
    (s1, [Ev.thMove s1.lastPosition cfg.travel_speed, Ev.waitMoves])
  else (s, [])

/-- One iteration of the pause-loop branch of `PurgeBelt.purge_cycle`
(lines 220-243, the dwell excluded): approach the purge height, sync, extrude
the segment on the extrusion axis and on the registered extra axis, unsync,
retract while commanding the belt forward by the retract-travel distance,
and return to the park height. -/
noncomputable def purge_segment (cfg : Cfg)
    (purge_height seg extrusion_speed layer_height extrusion_width : ℝ)
    (s : St) : Except (Err × St) (St × List Ev) :=
  let lp1 := { s.lastPosition with z := purge_height }
  let s1 := { s with lastPosition := lp1 }
  match sync_purge_belt cfg layer_height extrusion_width s1 with
  | .error e => .error e
  | .ok (s2, evS) =>
    match s2.eaIndex with
    | none => .error (.typeError, s2)
    | some idx =>
      let lp2 := { s2.lastPosition with e := s2.lastPosition.e + seg }
      let lp3 := GPos.set lp2 idx (GPos.get lp2 idx + seg)
      let s3 := { s2 with lastPosition := lp3 }
      let (s4, evU) := unsync_purge_belt s3
      let lp4 := { s4.lastPosition with e := s4.lastPosition.e - cfg.retract_dist }
      let s5 := { s4 with lastPosition := lp4 }
      let movepos := s5.beltPos + cfg.purge_belt_retract_travel_dist
      let s6 := { s5 with beltPos := movepos }
      let lp5 := { s6.lastPosition with z := cfg.park_pos_z }
      let s7 := { s6 with lastPosition := lp5 }
      .ok (s7,
        [Ev.thMove lp1 cfg.approach_speed, Ev.waitMoves]
        ++ evS
        ++ [Ev.thMove lp3 extrusion_speed, Ev.waitMoves]
        ++ evU
        ++ [Ev.beltMove movepos cfg.belt_velocity cfg.belt_accel,
            Ev.thMove lp4 cfg.retract_speed, Ev.waitMoves,
            Ev.thMove lp5 cfg.travel_speed, Ev.waitMoves])

/-- The `for i in range(pause_qty + 1)` loop of the general branch of
`purge_cycle`, over the explicit list of loop indices, with the trailing
`if i < pause_qty: dwell(pause_time)` of each iteration. -/
noncomputable def purge_loop (cfg : Cfg)
    (purge_height seg extrusion_speed pause_time layer_height extrusion_width : ℝ)
    (pause_qty : ℤ) : List ℕ → St → Except (Err × St) (St × List Ev)
  | [], s => .ok (s, [])
  | i :: rest, s =>
    match purge_segment cfg purge_height seg extrusion_speed layer_height
        extrusion_width s with
    | .error e => .error e
    | .ok (s1, ev1) =>
      let evD := if (i : ℤ) < pause_qty then [Ev.dwell pause_time] else []
      match purge_loop cfg purge_height seg extrusion_speed pause_time
          layer_height extrusion_width pause_qty rest s1 with
      | .error e => .error e
      | .ok (s2, ev2) => .ok (s2, ev1 ++ evD ++ ev2)

/-- The dedicated `pause_qty == 0` branch of `purge_cycle` (lines 193-216),
translated separately from the loop branch because the source duplicates the
statements: one full-length segment, no dwell. -/
noncomputable def purge_zero (cfg : Cfg)
    (purge_height purge_length extrusion_speed layer_height extrusion_width : ℝ)
    (s : St) : Except (Err × St) (St × List Ev) :=
  let lp1 := { s.lastPosition with z := purge_height }
  let s1 := { s with lastPosition := lp1 }
  match sync_purge_belt cfg layer_height extrusion_width s1 with
  | .error e => .error e
  | .ok (s2, evS) =>
    match s2.eaIndex with
    | none => .error (.typeError, s2)
    | some idx =>
      let lp2 := { s2.lastPosition with e := s2.lastPosition.e + purge_length }
      let lp3 := GPos.set lp2 idx (GPos.get lp2 idx + purge_length)
      let s3 := { s2 with lastPosition := lp3 }
      let (s4, evU) := unsync_purge_belt s3
      let lp4 := { s4.lastPosition with e := s4.lastPosition.e - cfg.retract_dist }
      let s5 := { s4 with lastPosition := lp4 }
      let movepos := s5.beltPos + cfg.purge_belt_retract_travel_dist
      let s6 := { s5 with beltPos := movepos }
      let lp5 := { s6.lastPosition with z := cfg.park_pos_z }
      let s7 := { s6 with lastPosition := lp5 }
      .ok (s7,
        [Ev.thMove lp1 cfg.approach_speed, Ev.waitMoves]
        ++ evS
        ++ [Ev.thMove lp3 extrusion_speed, Ev.waitMoves]
        ++ evU
        ++ [Ev.beltMove movepos cfg.belt_velocity cfg.belt_accel,
            Ev.thMove lp4 cfg.retract_speed, Ev.waitMoves,
            Ev.thMove lp5 cfg.travel_speed, Ev.waitMoves])

/-- `PurgeBelt.purge_cycle`: park, run either the dedicated `pause_qty == 0`
branch or the pause loop (with segment length `purge_length / (pause_qty+1)`),
command the belt forward by the outfeed length, wait, and restore the
position. -/
noncomputable def purge_cycle (cfg : Cfg)
    (purge_length layer_height extrusion_width extrusion_speed : ℝ)
    (pause_qty : ℤ) (pause_time : ℝ) (s : St) :
    Except (Err × St) (St × List Ev) :=
  let (s0, ev0) := move_to_park_pos cfg s
  let purge_height := cfg.purge_belt_z + layer_height
  let core :=
    if pause_qty = 0 then
      purge_zero cfg purge_height purge_length extrusion_speed layer_height
        extrusion_width s0
    else
      let seg := purge_length / ((pause_qty : ℝ) + 1)
      purge_loop cfg purge_height seg extrusion_speed pause_time layer_height
        extrusion_width pause_qty (List.range (pause_qty + 1).toNat) s0
  match core with
  | .error e => .error e
  | .ok (s1, ev1) =>
    let movepos := s1.beltPos + cfg.purge_belt_outfeed_length
    let s2 := { s1 with beltPos := movepos }
    let ev2 := [Ev.beltMove movepos cfg.belt_velocity cfg.belt_accel, Ev.waitMoves]
    let (s3, ev3) := restore_pos cfg s2
    .ok (s3, ev0 ++ ev1 ++ ev2 ++ ev3)

/-- The event trace of a cycle result (empty on an error, whose trace the
claims do not use). -/
def res_trace : Except (Err × St) (St × List Ev) → List Ev
  | .ok (_, ev) => ev
  | .error _ => []

/-- X coordinates of the toolhead moves of a trace, in order. -/
def th_move_xs (evs : List Ev) : List ℝ :=
  evs.filterMap fun e => match e with
    | .thMove p _ => some p.x
    | _ => none

/-- Targets of the belt-stepper moves of a trace, in order. -/
def belt_targets (evs : List Ev) : List ℝ :=
  evs.filterMap fun e => match e with
    | .beltMove m _ _ => some m
    | _ => none

/-- Number of dwell events of a trace. -/
def count_dwell (evs : List Ev) : ℕ :=
  evs.countP fun e => match e with
    | .dwell _ => true
    | _ => false

/-- The error kind of a session result, if any. -/
def result_err : Except (Err × St) (St × List Ev) → Option Err
  | .error (e, _) => some e
  | .ok _ => none

/-- The state carried by an erroring session result. -/
def result_err_state : Except (Err × St) (St × List Ev) → Option St
  | .error (_, t) => some t
  | .ok _ => none

/-- The event trace the purge-cycle claim expects for one segment, written
from the claim's per-segment sequence: approach to the purge height, sync
(the remap-registration command for the allocated letter `ea`), extrude the
segment length on the extrusion axis and on the registered axis `idx`,
unsync (the release command), retract while commanding the belt forward by
the retract-travel distance, and return to the park height.  `p` and `b` are
the toolhead position and the belt position entering the segment. -/
noncomputable def seg_expected_events (cfg : Cfg)
    (purge_height seg extrusion_speed : ℝ) (ea : Char) (idx : ℕ)
    (p : GPos) (b : ℝ) : List Ev :=
  let p1 := { p with z := purge_height }
  let p2 := { p1 with e := p1.e + seg }
  let p3 := GPos.set p2 idx (GPos.get p2 idx + seg)
  let p4 := { p3 with e := p3.e - cfg.retract_dist }
  let b1 := b + cfg.purge_belt_retract_travel_dist
  let p5 := { p4 with z := cfg.park_pos_z }
  [Ev.thMove p1 cfg.approach_speed, Ev.waitMoves,
   Ev.runScript ("MANUAL_STEPPER STEPPER=purge_belt_stepper GCODE_AXIS="
     ++ ea.toString),
   Ev.thMove p3 extrusion_speed, Ev.waitMoves,
   Ev.runScript ("MANUAL_STEPPER STEPPER=purge_belt_stepper GCODE_AXIS="),
   Ev.beltMove b1 cfg.belt_velocity cfg.belt_accel,
   Ev.thMove p4 cfg.retract_speed, Ev.waitMoves,
   Ev.thMove p5 cfg.travel_speed, Ev.waitMoves]

/-- Toolhead position after one expected segment. -/
noncomputable def seg_expected_pos (cfg : Cfg) (purge_height seg : ℝ)
    (idx : ℕ) (p : GPos) : GPos :=
  let p1 := { p with z := purge_height }
  let p2 := { p1 with e := p1.e + seg }
  let p3 := GPos.set p2 idx (GPos.get p2 idx + seg)
  let p4 := { p3 with e := p3.e - cfg.retract_dist }
  { p4 with z := cfg.park_pos_z }

/-- The expected trace of `n` segments, with a dwell of `pause_time` after
each segment except the last. -/
noncomputable def segs_expected (cfg : Cfg)
    (purge_height seg extrusion_speed pause_time : ℝ) (ea : Char) (idx : ℕ) :
    ℕ → GPos → ℝ → List Ev
  | 0, _, _ => []
  | n + 1, p, b =>
    seg_expected_events cfg purge_height seg extrusion_speed ea idx p b
    ++ (if n = 0 then [] else [Ev.dwell pause_time])
    ++ segs_expected cfg purge_height seg extrusion_speed pause_time ea idx n
        (seg_expected_pos cfg purge_height seg idx p)
        (b + cfg.purge_belt_retract_travel_dist)

/-- Toolhead position after `n` expected segments. -/
noncomputable def segs_expected_pos (cfg : Cfg) (purge_height seg : ℝ)
    (idx : ℕ) : ℕ → GPos → GPos
  | 0, p => p
  | n + 1, p => segs_expected_pos cfg purge_height seg idx n
      (seg_expected_pos cfg purge_height seg idx p)

/-- Belt position after `n` expected segments. -/
noncomputable def segs_expected_belt (cfg : Cfg) : ℕ → ℝ → ℝ
  | 0, b => b
  | n + 1, b => segs_expected_belt cfg n (b + cfg.purge_belt_retract_travel_dist)

/-- The full trace the purge-cycle claims expect: park travel, the
`(pause_qty+1)` segments of length `purge_length / (pause_qty+1)` at purge
height `purge_belt_z + layer_height` with a dwell between consecutive
segments, the belt outfeed with its wait, and — when configured — the final
position-restore move. -/
noncomputable def cycle_expected_trace (cfg : Cfg)
    (purge_length layer_height extrusion_speed pause_time : ℝ)
    (pause_qty : ℤ) (s : St) : List Ev :=
  let park : GPos :=
    { x := cfg.park_pos_x, y := cfg.park_pos_y, z := cfg.park_pos_z
      e := s.toolheadPos.e, extra := fun _ => 0 }
  let n := (pause_qty + 1).toNat
  let ph := cfg.purge_belt_z + layer_height
  let seg := purge_length / ((pause_qty : ℝ) + 1)
  [Ev.thMove park cfg.travel_speed, Ev.waitMoves]
  ++ segs_expected cfg ph seg extrusion_speed pause_time 'A' 4 n park s.beltPos
  ++ [Ev.beltMove (segs_expected_belt cfg n s.beltPos + cfg.purge_belt_outfeed_length)
        cfg.belt_velocity cfg.belt_accel, Ev.waitMoves]
  ++ (if cfg.return_to_start_pos then
        [Ev.thMove (segs_expected_pos cfg ph seg 4 n park) cfg.travel_speed,
         Ev.waitMoves]
      else [])

end PB

/-- Modelled from the spec: the host's ordinary g-code axis map at cycle
time — the four standard axes X, Y, Z and the extrusion axis, at list
indices 0-3.  (The `axis_map` attribute itself is maintained by the
repository's `manual_mh_stepper.py`, which is not under `src/`.) -/
def stdAxisMap : List (Char × ℕ) := [('X', 0), ('Y', 1), ('Z', 2), ('E', 3)]

/-- An axis map in which every allocatable letter (the uppercase alphabet
minus the reserved `X Y Z E F N`) is already used. -/
def fullAxisMap : List (Char × ℕ) :=
  "ABCDGHIJKLMOPQRSTUVW".toList.zip (List.range 20)

/-- A concrete `[purgebelt]` configuration (filament diameter 2, so the
cross-section area is exactly pi). -/
noncomputable def pbCfg : PB.Cfg :=
  { park_pos_x := 10, park_pos_y := 10, park_pos_z := 2, purge_belt_z := 0
    filament_diameter := 2, purge_length := 50, purged_length_section_max := 200
    purge_layer_height := 1, purge_extrusion_width := 1
    purge_belt_outfeed_length := 100, purge_belt_retract_travel_dist := 10
    extrude_speed := 5, travel_speed := 100, approach_speed := 5
    retract_speed := 20, retract_dist := 5, pause_time := 1, pause_qty := 1
    return_to_start_pos := true, max_flow_rate := 40, flow_rate := 30
    belt_velocity := 1, belt_accel := 1 }

/-- The same configuration with the claim's concrete filament diameter
1.75. -/
noncomputable def pbCfgD : PB.Cfg := { pbCfg with filament_diameter := 1.75 }

/-- A concrete toolhead position. -/
noncomputable def pbPos0 : PB.GPos :=
  { x := 3, y := 4, z := 5, e := 6, extra := fun _ => 0 }

/-- A concrete free (unsynced) purge-belt state over the standard axis
map. -/
noncomputable def pbFree : PB.St :=
  { sync_status := false, rotationDist := 7, lastRotationDist := 0
    eaIndex := none, eaLetter := none, axisMap := stdAxisMap, beltPos := 0
    lastPosition := pbPos0, initPos := pbPos0, gcodeObjLastPosition := none
    toolheadPos := pbPos0 }

/-- The same state synced on letter `A`. -/
noncomputable def pbSynced : PB.St :=
  { pbFree with
    sync_status := true
    eaLetter := some 'A'
    axisMap := stdAxisMap ++ [('A', 4)]
    eaIndex := some 4
    lastRotationDist := 7 }

/-- The free state with every allocatable axis letter taken. -/
noncomputable def pbFull : PB.St :=
  { pbFree with axisMap := fullAxisMap }

/-- A stepper state whose motion-queue binding is active. -/
def mesBound : MES.St :=
  { steppers := [0], railSteppers := [0], railTrapq := 0, railPos := 0
    chanSk := fun _ => 0, chanTrapq := fun _ => 0, chanPos := fun _ => 0
    motionQueue := some "extruder", syncedExtruderName := some "extruder"
    endstopSteppers := fun _ => [] }

/-- The same stepper state with the binding cleared. -/
def mesFree : MES.St :=
  { mesBound with motionQueue := none, syncedExtruderName := none }

/-- Constants of a concrete `ManualExtruderStepper` instance. -/
def mesCfg : MES.Cfg :=
  { trapq := 10, skExtruder := 11, linkedMoveSk := 12, altStepperSks := [20] }

/-- A concrete registry: one active extruder whose stepper is channel 5, one
manual stepper `belt` with channel 7, one endstop named `default`. -/
def mesEnv : MES.Env :=
  { activeExtruderName := "extruder", activeExtruderStepper := 5
    extruders := fun n => if n = "extruder" then some { lastPosition := 0, trapq := 30 } else none
    manualSteppers := fun n => if n = "belt" then some 7 else none
    endstops := fun n => if n = "default" then some 1 else none }

/-- A concrete unbound source-actuator state owning channel 0. -/
def mesS : MES.St :=
  { steppers := [0], railSteppers := [0], railTrapq := 10, railPos := 0
    chanSk := fun _ => 99, chanTrapq := fun _ => 98, chanPos := fun _ => 0
    motionQueue := none, syncedExtruderName := none
    endstopSteppers := fun _ => [] }

namespace MES

/-- A saved motion-queue binding can be re-applied at session exit: it is
either `None` or resolves to a live extruder in the registry. -/
def mq_resolvable (env : Env) : Option String → Prop
  | none => True
  | some n => ∃ ex, env.extruders n = some ex

/-- The optional endstop name of a session resolves (or is absent). -/
def endstop_ok (env : Env) : Option String → Prop
  | none => True
  | some nm => ∃ es, env.endstops nm = some es

/-- The state components the Linked-Motion Session claim requires to be
identical before entry and after exit: the source actuator's two stepper
lists, the borrowed channel's kinematics handle and trapq, and the source
actuator's motion-queue binding. -/
def round_trip (s t : St) (chan : ℕ) : Prop :=
  t.steppers = s.steppers ∧ t.railSteppers = s.railSteppers ∧
  t.chanSk chan = s.chanSk chan ∧ t.chanTrapq chan = s.chanTrapq chan ∧
  t.motionQueue = s.motionQueue

/-- The error kind of a result, if any. -/
def res_err : Res → Option Err
  | .error (e, _) => some e
  | .ok _ => none

/-- The state a result carries (the final state on success, the state at the
moment of the raise on an error). -/
def res_state : Res → St
  | .error (_, t) => t
  | .ok t => t

lemma foldl_update_pairs_not_mem (l : List (ℕ × ℕ)) (f : ℕ → ℕ) (k : ℕ)
    (hk : k ∉ l.map Prod.fst) :
    l.foldl (fun g p => Function.update g p.1 p.2) f k = f k := by
  induction l generalizing f with
  | nil => rfl
  | cons hd tl ih =>
    simp only [List.map_cons, List.mem_cons] at hk
    push_neg at hk
    rw [List.foldl_cons, ih _ hk.2]
    exact Function.update_noteq hk.1 _ _

lemma foldl_update_const_not_mem (l : List ℕ) (f : ℕ → ℕ) (v k : ℕ)
    (hk : k ∉ l) :
    l.foldl (fun g c => Function.update g c v) f k = f k := by
  induction l generalizing f with
  | nil => rfl
  | cons hd tl ih =>
    simp only [List.mem_cons] at hk
    push_neg at hk
    rw [List.foldl_cons, ih _ hk.2]
    exact Function.update_noteq hk.1 _ _

@[simp] lemma sync_none_steppers (cfg : Cfg) (s : St) :
    (sync_none cfg s).steppers = s.steppers := rfl

@[simp] lemma sync_none_railSteppers (cfg : Cfg) (s : St) :
    (sync_none cfg s).railSteppers = s.railSteppers := rfl

@[simp] lemma sync_none_chanTrapq (cfg : Cfg) (s : St) :
    (sync_none cfg s).chanTrapq = s.chanTrapq := rfl

@[simp] lemma sync_none_motionQueue (cfg : Cfg) (s : St) :
    (sync_none cfg s).motionQueue = none := rfl

lemma not_mem_zip_map_fst {l l' : List ℕ} {k : ℕ} (hk : k ∉ l) :
    k ∉ (l.zip l').map Prod.fst := by
  intro hmem
  obtain ⟨p, hp, hpk⟩ := List.mem_map.mp hmem
  exact hk (hpk ▸ (List.of_mem_zip hp).1)

lemma sync_none_chanSk_not_mem (cfg : Cfg) (s : St) (k : ℕ) (hk : k ∉ s.steppers) :
    (sync_none cfg s).chanSk k = s.chanSk k := by
  show (s.steppers.zip cfg.altStepperSks).foldl
      (fun g p => Function.update g p.1 p.2) s.chanSk k = s.chanSk k
  exact foldl_update_pairs_not_mem _ _ _ (not_mem_zip_map_fst hk)

/-- After restoration the stepper lists, the borrowed channel's kinematics
and trapq, and the motion queue have the saved values, whatever state the
wrapped operation left behind. -/
lemma link_restore_spec (cfg : Cfg) (env : Env) (chan : ℕ) (sv : Saved) (t : St)
    (hmq : mq_resolvable env sv.mq) (hchan : chan ∉ sv.prevSteppers) :
    ∃ t', link_restore cfg env chan sv t = .ok t' ∧
      t'.steppers = sv.prevSteppers ∧ t'.railSteppers = sv.prevRailSteppers ∧
      t'.chanSk chan = sv.prevSk ∧ t'.chanTrapq chan = sv.prevTrapq ∧
      t'.motionQueue = sv.mq := by
  unfold link_restore sync_to_extruder
  cases hm : sv.mq with
  | none =>
    refine ⟨_, rfl, rfl, rfl, ?_, ?_, rfl⟩
    · rw [sync_none_chanSk_not_mem _ _ _ hchan]
      exact Function.update_same _ _ _
    · exact Function.update_same _ _ _
  | some n =>
    rw [hm] at hmq
    obtain ⟨ex, hex⟩ := hmq
    simp only [hex]
    refine ⟨_, rfl, rfl, rfl, ?_, ?_, rfl⟩
    · show sv.prevSteppers.foldl (fun g c => Function.update g c cfg.skExtruder)
        (Function.update t.chanSk chan sv.prevSk) chan = sv.prevSk
      rw [foldl_update_const_not_mem _ _ _ _ hchan]
      exact Function.update_same _ _ _
    · exact Function.update_same _ _ _

/-- When the borrowed channel resolves, an endstop name (if any) resolves
and the source-actuator state is well formed, session entry succeeds, and
the context it saves holds exactly the pre-entry values of the components at
issue. -/
lemma link_entry_spec (cfg : Cfg) (env : Env) (chan : ℕ) (endstopName : Option String)
    (s : St) (hne : s.steppers ≠ []) (hchan : chan ∉ s.steppers)
    (hend : endstop_ok env endstopName) :
    ∃ sv smid, link_entry cfg env chan endstopName s = .ok (sv, smid) ∧
      sv.prevSteppers = s.steppers ∧ sv.prevRailSteppers = s.railSteppers ∧
      sv.prevSk = s.chanSk chan ∧ sv.prevTrapq = s.chanTrapq chan ∧
      sv.mq = s.motionQueue := by
  obtain ⟨stp, rail, rtq, rpos, csk, ctq, cpos, mq, sen, est⟩ := s
  simp only at hne hchan
  obtain ⟨m0, rest, hs⟩ := List.exists_cons_of_ne_nil hne
  subst hs
  have hskfold : ((m0 :: rest).zip cfg.altStepperSks).foldl
      (fun g p => Function.update g p.1 p.2) csk chan = csk chan :=
    foldl_update_pairs_not_mem _ _ _ (not_mem_zip_map_fst hchan)
  cases endstopName with
  | none =>
    refine ⟨⟨m0 :: rest, rail,
        ((m0 :: rest).zip cfg.altStepperSks).foldl
          (fun g p => Function.update g p.1 p.2) csk chan,
        ctq chan, mq⟩,
      { steppers := (m0 :: rest) ++ [chan]
        railSteppers := rail ++ [chan]
        railTrapq := cfg.trapq
        railPos := rpos
        chanSk := Function.update
          (((m0 :: rest).zip cfg.altStepperSks).foldl
            (fun g p => Function.update g p.1 p.2) csk) chan cfg.linkedMoveSk
        chanTrapq := Function.update ctq chan cfg.trapq
        chanPos := Function.update cpos chan (cpos m0)
        motionQueue := none
        syncedExtruderName := none
        endstopSteppers := est },
      ?_, rfl, rfl, hskfold, rfl, rfl⟩
    rfl
  | some nm =>
    obtain ⟨es, hes⟩ := hend
    refine ⟨⟨m0 :: rest, rail,
        ((m0 :: rest).zip cfg.altStepperSks).foldl
          (fun g p => Function.update g p.1 p.2) csk chan,
        ctq chan, mq⟩,
      { steppers := (m0 :: rest) ++ [chan]
        railSteppers := rail ++ [chan]
        railTrapq := cfg.trapq
        railPos := rpos
        chanSk := Function.update
          (((m0 :: rest).zip cfg.altStepperSks).foldl
            (fun g p => Function.update g p.1 p.2) csk) chan cfg.linkedMoveSk
        chanTrapq := Function.update ctq chan cfg.trapq
        chanPos := Function.update cpos chan (cpos m0)
        motionQueue := none
        syncedExtruderName := none
        endstopSteppers := Function.update est es (est es ++ [chan]) },
      ?_, rfl, rfl, hskfold, rfl, rfl⟩
    unfold link_entry
    simp only [hes]
    rfl

/-- Round-trip of `link_session`: once entry has succeeded, the result —
success or error — carries a state whose claimed components equal the
pre-entry ones, and any error is the wrapped operation's own, re-raised
after restoration. -/
lemma link_session_spec (cfg : Cfg) (env : Env) (chan : ℕ)
    (endstopName : Option String) (body : St → Res) (s : St)
    (hne : s.steppers ≠ []) (hchan : chan ∉ s.steppers)
    (hend : endstop_ok env endstopName) (hmq : mq_resolvable env s.motionQueue) :
    (∀ t, link_session cfg env chan endstopName body s = .ok t →
      round_trip s t chan) ∧
    (∀ e t, link_session cfg env chan endstopName body s = .error (e, t) →
      round_trip s t chan ∧
      ∃ sv smid u, link_entry cfg env chan endstopName s = .ok (sv, smid) ∧
        body smid = .error (e, u)) := by
  obtain ⟨sv, smid, hentry, h1, h2, h3, h4, h5⟩ :=
    link_entry_spec cfg env chan endstopName s hne hchan hend
  have hmq' : mq_resolvable env sv.mq := h5 ▸ hmq
  have hchan' : chan ∉ sv.prevSteppers := h1 ▸ hchan
  unfold link_session
  rw [hentry]
  cases hbody : body smid with
  | ok t0 =>
    obtain ⟨t', hrest, r1, r2, r3, r4, r5⟩ :=
      link_restore_spec cfg env chan sv t0 hmq' hchan'
    simp only [hbody, hrest]
    constructor
    · intro t ht
      cases ht
      exact ⟨r1.trans h1, r2.trans h2, r3.trans h3, r4.trans h4, r5.trans h5⟩
    · intro e t ht
      cases ht
  | error et =>
    obtain ⟨e0, t0⟩ := et
    obtain ⟨t', hrest, r1, r2, r3, r4, r5⟩ :=
      link_restore_spec cfg env chan sv t0 hmq' hchan'
    simp only [hbody, hrest]
    constructor
    · intro t ht
      cases ht
    · intro e t ht
      cases ht
      exact ⟨⟨r1.trans h1, r2.trans h2, r3.trans h3, r4.trans h4, r5.trans h5⟩,
             sv, smid, t0, rfl, hbody⟩

end MES

namespace PB

lemma find_ea_label_not_mem (used : List Char) (l : List Char) (c : Char)
    (h : find_ea_label used l = some c) : c ∉ used := by
  induction l with
  | nil => simp [find_ea_label] at h
  | cons d rest ih =>
    unfold find_ea_label at h
    split_ifs at h with h1 h2
    · exact ih h
    · exact ih h
    · cases h
      exact h2

lemma lookup_append_self (m : List (Char × ℕ)) (ea : Char) (k : ℕ)
    (h : ea ∉ m.map Prod.fst) : (m ++ [(ea, k)]).lookup ea = some k := by
  induction m with
  | nil => simp [List.lookup]
  | cons p rest ih =>
    obtain ⟨a, b⟩ := p
    simp only [List.map_cons, List.mem_cons] at h
    push_neg at h
    rw [List.cons_append, List.lookup]
    rw [beq_eq_false_iff_ne.mpr h.1]
    exact ih h.2

/-- Reduction of a successful `sync_purge_belt` from the Free state. -/
lemma sync_purge_belt_ok (cfg : Cfg) (lh ew : ℝ) (s : St) (ea : Char)
    (hsync : s.sync_status = false)
    (hea : get_available_ea_label s.axisMap = some ea) :
    sync_purge_belt cfg lh ew s = .ok
      ({ s with
          lastRotationDist := s.rotationDist
          rotationDist := calc_purge_belt_rotation_distance_synced cfg lh ew
            { s with lastRotationDist := s.rotationDist }
          axisMap := s.axisMap ++ [(ea, s.axisMap.length)]
          eaLetter := some ea
          eaIndex := some s.axisMap.length
          sync_status := true },
       [Ev.runScript ("MANUAL_STEPPER STEPPER=purge_belt_stepper GCODE_AXIS="
          ++ ea.toString)]) := by
  have hnot : ea ∉ s.axisMap.map Prod.fst := find_ea_label_not_mem _ _ _ hea
  unfold sync_purge_belt register_gcode_axis get_ea_index
  simp only [hsync, Bool.false_eq_true, if_false, hea]
  rw [lookup_append_self _ _ _ hnot]

/-- Reduction of `unsync_purge_belt` from the Synced state. -/
lemma unsync_purge_belt_synced (s : St) (ea : Char)
    (hsync : s.sync_status = true) (hlet : s.eaLetter = some ea) :
    unsync_purge_belt s =
      ({ s with
          axisMap := s.axisMap.filter (fun p => p.1 ≠ ea)
          eaLetter := none
          rotationDist := s.lastRotationDist
          sync_status := false },
       [Ev.runScript ("MANUAL_STEPPER STEPPER=purge_belt_stepper GCODE_AXIS=")]) := by
  unfold unsync_purge_belt unregister_gcode_axis
  simp only [hsync, if_true, hlet]

/-- Reduction of `sync_purge_belt` when every letter is taken: the error is
raised after the rotation distance and the saved slot have been written. -/
lemma sync_purge_belt_exhausted (cfg : Cfg) (lh ew : ℝ) (s : St)
    (hsync : s.sync_status = false)
    (hnone : get_available_ea_label s.axisMap = none) :
    sync_purge_belt cfg lh ew s = .error (.noFreeAxisLabel,
      { s with
          lastRotationDist := s.rotationDist
          rotationDist := calc_purge_belt_rotation_distance_synced cfg lh ew
            { s with lastRotationDist := s.rotationDist } }) := by
  unfold sync_purge_belt
  simp only [hsync, Bool.false_eq_true, if_false, hnone]

/-- The scan of `get_available_ea_label` returns the head of the list of
free letters, in alphabet order. -/
lemma find_ea_label_eq_filter (used : List Char) (l : List Char) :
    find_ea_label used l =
      (l.filter (fun c =>
        decide (c ∉ (['X', 'Y', 'Z', 'E', 'F', 'N'] : List Char) ∧
                c ∉ used))).head? := by
  induction l with
  | nil => rfl
  | cons c rest ih =>
    unfold find_ea_label
    by_cases h1 : c = 'X' ∨ c = 'Y' ∨ c = 'Z' ∨ c = 'E' ∨ c = 'F' ∨ c = 'N'
    · have hm : c ∈ (['X', 'Y', 'Z', 'E', 'F', 'N'] : List Char) := by
        simpa using h1
      have hp : (decide (c ∉ (['X', 'Y', 'Z', 'E', 'F', 'N'] : List Char) ∧
          c ∉ used)) = false := by simp [hm]
      rw [if_pos h1, ih, List.filter_cons, hp]
      simp only [Bool.false_eq_true, if_false]
    · have hm : c ∉ (['X', 'Y', 'Z', 'E', 'F', 'N'] : List Char) := by
        simpa using h1
      by_cases h2 : c ∈ used
      · have hp : (decide (c ∉ (['X', 'Y', 'Z', 'E', 'F', 'N'] : List Char) ∧
            c ∉ used)) = false := by simp [h2]
        rw [if_neg h1, if_pos h2, ih, List.filter_cons, hp]
        simp only [Bool.false_eq_true, if_false]
      · have hp : (decide (c ∉ (['X', 'Y', 'Z', 'E', 'F', 'N'] : List Char) ∧
            c ∉ used)) = true := by simp [hm, h2]
        rw [if_neg h1, if_neg h2, List.filter_cons, hp]
        simp only [if_true, List.head?_cons]

/-- The dedicated `pause_qty == 0` branch computes exactly what one
iteration of the loop branch computes with the full purge length and no
dwell: the two duplicated code blocks agree on both the final state and the
emitted events. -/
lemma purge_zero_eq_loop (cfg : Cfg) (ph plen es pt lh ew : ℝ) (s : St) :
    purge_zero cfg ph plen es lh ew s =
      purge_loop cfg ph plen es pt lh ew 0 [0] s := by
  unfold purge_zero purge_loop purge_segment
  cases hsync : sync_purge_belt cfg lh ew
      { s with lastPosition := { s.lastPosition with z := ph } } with
  | error e => simp [hsync]
  | ok pr =>
    obtain ⟨s2, evS⟩ := pr
    cases hidx : s2.eaIndex with
    | none => simp [hsync, hidx]
    | some idx =>
      simp only [hsync, hidx]
      rw [if_neg (by decide : ¬(((0 : ℕ) : ℤ) < (0 : ℤ)))]
      simp only [purge_loop, List.append_nil]

/-- One loop-branch segment from a clean state (Free, standard axis map, no
letter registered): it allocates letter `A` at index 4, emits exactly the
expected segment events, and returns to a clean state with the expected
position, the belt advanced by the retract-travel distance, `ea_index = 4`
and the rotation distance round-tripped (only the saved slot rewritten). -/
lemma purge_segment_clean (cfg : Cfg) (ph seg es lh ew : ℝ) (s : St)
    (h1 : s.sync_status = false) (h2 : s.axisMap = stdAxisMap)
    (h3 : s.eaLetter = none) :
    purge_segment cfg ph seg es lh ew s = .ok
      ({ s with
          lastPosition := seg_expected_pos cfg ph seg 4 s.lastPosition
          beltPos := s.beltPos + cfg.purge_belt_retract_travel_dist
          eaIndex := some 4
          lastRotationDist := s.rotationDist },
       seg_expected_events cfg ph seg es 'A' 4 s.lastPosition s.beltPos) := by
  obtain ⟨ss, rd, lrd, eaI, eaL, am, bp, lp, ip, go, tp⟩ := s
  simp only at h1 h2 h3
  subst h1 h2 h3
  have hAvail : get_available_ea_label stdAxisMap = some 'A' := by decide
  unfold purge_segment
  simp only []
  rw [sync_purge_belt_ok cfg lh ew _ 'A' rfl hAvail]
  simp only []
  rw [unsync_purge_belt_synced _ 'A' rfl rfl]
  have hfil : ((stdAxisMap ++ [('A', stdAxisMap.length)]).filter
      (fun p => p.1 ≠ 'A')) = stdAxisMap := by decide
  simp only [hfil]
  rfl

/-- The pause loop over indices `a, a+1, …, a+n-1` with `a + n = pause_qty
+ 1` and `n ≥ 1`, from a clean state: it emits the expected segment traces
with a dwell after every segment except the last. -/
lemma purge_loop_clean (cfg : Cfg) (ph seg es pt lh ew : ℝ) (pq : ℤ) :
    ∀ (n a : ℕ) (s : St), 0 < n → s.sync_status = false →
      s.axisMap = stdAxisMap → s.eaLetter = none →
      ((a : ℤ) + n = pq + 1) →
      purge_loop cfg ph seg es pt lh ew pq (List.range' a n) s = .ok
        ({ s with
            lastPosition := segs_expected_pos cfg ph seg 4 n s.lastPosition
            beltPos := segs_expected_belt cfg n s.beltPos
            eaIndex := some 4
            lastRotationDist := s.rotationDist },
         segs_expected cfg ph seg es pt 'A' 4 n s.lastPosition s.beltPos) := by
  intro n
  induction n with
  | zero => intro a s h0; exact absurd h0 (lt_irrefl 0)
  | succ m ih =>
    intro a s _ h1 h2 h3 hsum
    rw [List.range'_succ]
    unfold purge_loop
    rw [purge_segment_clean cfg ph seg es lh ew s h1 h2 h3]
    cases m with
    | zero =>
      have hnd : ¬((a : ℤ) < pq) := by
        push_cast at hsum ⊢
        omega
      simp only []
      rw [if_neg hnd]
      simp [purge_loop, segs_expected]
      exact ⟨rfl, rfl⟩
    | succ k =>
      have hd : ((a : ℤ) < pq) := by
        push_cast at hsum ⊢
        omega
      simp only []
      rw [ih (a + 1)
        ({ s with
            lastPosition := seg_expected_pos cfg ph seg 4 s.lastPosition
            beltPos := s.beltPos + cfg.purge_belt_retract_travel_dist
            eaIndex := some 4
            lastRotationDist := s.rotationDist })
        (Nat.succ_pos k) h1 h2 h3 (by push_cast at hsum ⊢; omega),
        if_pos hd]
      rfl

/-- The full purge cycle from a clean state emits exactly the expected
trace: park travel, `(pause_qty+1)` segments with inter-segment dwells, the
outfeed, and the configured restore move. -/
lemma purge_cycle_clean (cfg : Cfg) (plen lh ew es pt : ℝ) (pq : ℤ) (s : St)
    (h1 : s.sync_status = false) (h2 : s.axisMap = stdAxisMap)
    (h3 : s.eaLetter = none) (hpq : 0 ≤ pq) :
    ∃ sf, purge_cycle cfg plen lh ew es pq pt s =
      .ok (sf, cycle_expected_trace cfg plen lh es pt pq s) := by
  unfold purge_cycle move_to_park_pos get_init_toolhead_pos restore_pos
    cycle_expected_trace
  simp only []
  by_cases hz : pq = 0
  · subst hz
    rw [if_pos rfl,
      purge_zero_eq_loop cfg (cfg.purge_belt_z + lh) plen es pt lh ew,
      show ([0] : List ℕ) = List.range' 0 1 from rfl,
      purge_loop_clean cfg (cfg.purge_belt_z + lh) plen es pt lh ew 0 1 0
        ({ s with
            lastPosition :=
              { x := cfg.park_pos_x, y := cfg.park_pos_y, z := cfg.park_pos_z
                e := s.toolheadPos.e, extra := fun _ => 0 }
            initPos := s.toolheadPos })
        Nat.one_pos h1 h2 h3 (by decide)]
    simp only []
    have hseg : plen / (((0 : ℤ) : ℝ) + 1) = plen := by norm_num
    rw [hseg]
    cases hret : cfg.return_to_start_pos with
    | false =>
      exact ⟨_, by
        simp only [hret, Bool.false_eq_true, if_false, List.append_nil]
        rfl⟩
    | true =>
      exact ⟨_, by
        simp only [hret, if_true]
        rfl⟩
  · rw [if_neg hz, List.range_eq_range',
      purge_loop_clean cfg (cfg.purge_belt_z + lh) (plen / ((pq : ℝ) + 1)) es pt
        lh ew pq ((pq + 1).toNat) 0
        ({ s with
            lastPosition :=
              { x := cfg.park_pos_x, y := cfg.park_pos_y, z := cfg.park_pos_z
                e := s.toolheadPos.e, extra := fun _ => 0 }
            initPos := s.toolheadPos })
        (by omega) h1 h2 h3
        (by rw [Nat.cast_zero, Int.toNat_of_nonneg (by omega : (0 : ℤ) ≤ pq + 1)]
            ring)]
    simp only []
    cases hret : cfg.return_to_start_pos with
    | false =>
      exact ⟨_, by
        simp only [hret, Bool.false_eq_true, if_false, List.append_nil]
        rfl⟩
    | true =>
      exact ⟨_, by
        simp only [hret, if_true]
        rfl⟩

lemma count_dwell_append (a b : List Ev) :
    count_dwell (a ++ b) = count_dwell a + count_dwell b :=
  List.countP_append _ _ _

lemma count_dwell_segs (cfg : Cfg) (ph seg es pt : ℝ) (ea : Char) (idx : ℕ) :
    ∀ (n : ℕ) (p : GPos) (b : ℝ),
      count_dwell (segs_expected cfg ph seg es pt ea idx n p b) = n - 1 := by
  intro n
  induction n with
  | zero => intro p b; rfl
  | succ m ih =>
    intro p b
    show count_dwell (seg_expected_events cfg ph seg es ea idx p b
        ++ (if m = 0 then [] else [Ev.dwell pt])
        ++ segs_expected cfg ph seg es pt ea idx m
            (seg_expected_pos cfg ph seg idx p)
            (b + cfg.purge_belt_retract_travel_dist)) = m + 1 - 1
    rw [count_dwell_append, count_dwell_append, ih]
    have h0 : count_dwell (seg_expected_events cfg ph seg es ea idx p b) = 0 := rfl
    rw [h0]
    cases m with
    | zero => rfl
    | succ k =>
      have h1 : count_dwell (if k + 1 = 0 then ([] : List Ev) else [Ev.dwell pt]) = 1 :=
        rfl
      rw [h1]
      omega

end PB

/-- **C3**: while an actuator's motion-queue binding is active (`is_synced`
returns true), each of the direct manual operations `do_enable`,
`do_set_position`, `do_move`, `do_homing_move` fails with the
binding-conflict rejection (the failed `assert self.motion_queue is None`)
with the state unchanged — in particular no position mutation — and the
`MANUAL_EXTRUDER_STEPPER` command is likewise rejected; when the binding is
inactive, each operation delegates to the underlying channel
implementation. -/
theorem c3_bound_manual_ops_rejected (s : MES.St) :
    (MES.is_synced s = true →
      (∀ op : MES.ManualOp, MES.do_op s op = .error (.bindingConflict, s)) ∧
      MES.cmd_manual_extruder_stepper_guard s = .error (.bindingConflict, s)) ∧
    (MES.is_synced s = false →
      ∀ op : MES.ManualOp, MES.do_op s op = .ok (MES.super_do_op s op)) := by
  constructor
  · intro h
    have hm : s.motionQueue ≠ none := by
      simpa [MES.is_synced, bne_iff_ne] using h
    exact ⟨fun op => by simp [MES.do_op, hm],
           by simp [MES.cmd_manual_extruder_stepper_guard, hm]⟩
  · intro h op
    have hm : s.motionQueue = none := by
      have h' : (s.motionQueue != none) = false := h
      simpa using h'
    simp [MES.do_op, hm]

/-- Witness for C3 at a concrete bound state and a concrete free state. -/
theorem c3_bound_manual_ops_rejected_witness :
    (MES.is_synced mesBound = true ∧
      MES.do_op mesBound (.setPosition 5) = .error (.bindingConflict, mesBound)) ∧
    (MES.is_synced mesFree = false ∧
      MES.do_op mesFree (.setPosition 5) = .ok (MES.super_do_op mesFree (.setPosition 5))) :=
  ⟨⟨rfl, ((c3_bound_manual_ops_rejected mesBound).1 rfl).1 _⟩,
   ⟨rfl, (c3_bound_manual_ops_rejected mesFree).2 rfl _⟩⟩

/-- **C1**: for every wrapped operation executed inside
`_with_linked_extruder` or `_with_linked_stepper` — whether it returns
normally or raises — the source actuator's stepper lists (`self.steppers`
and `self.rail.steppers`), the borrowed stepper's kinematic-model handle and
trapq, and the source actuator's motion-queue binding are identical before
session entry and after session exit; an error of the session is the wrapped
operation's own error, re-raised only after this restoration has completed
(the result carries the restored state). Hypotheses: the session's entry
resolutions succeed, the source owns at least one channel, the borrowed
channel is not already among the source's channels, and a saved non-`None`
binding still resolves at exit. -/
theorem c1_linked_session_round_trip
    (cfg : MES.Cfg) (env : MES.Env) (s : MES.St) (body : MES.St → MES.Res)
    (extruderName stepperName : String) (endstopName : Option String) (chan : ℕ)
    (hne : s.steppers ≠ []) (hend : MES.endstop_ok env endstopName)
    (hmq : MES.mq_resolvable env s.motionQueue) :
    (extruderName = env.activeExtruderName →
     env.activeExtruderStepper ∉ s.steppers →
      (∀ t, MES.with_linked_extruder cfg env extruderName endstopName body s = .ok t →
        MES.round_trip s t env.activeExtruderStepper) ∧
      (∀ e t,
        MES.with_linked_extruder cfg env extruderName endstopName body s = .error (e, t) →
        MES.round_trip s t env.activeExtruderStepper ∧
        ∃ sv smid u,
          MES.link_entry cfg env env.activeExtruderStepper endstopName s = .ok (sv, smid) ∧
          body smid = .error (e, u))) ∧
    (env.manualSteppers stepperName = some chan → chan ∉ s.steppers →
      (∀ t, MES.with_linked_stepper cfg env stepperName endstopName body s = .ok t →
        MES.round_trip s t chan) ∧
      (∀ e t,
        MES.with_linked_stepper cfg env stepperName endstopName body s = .error (e, t) →
        MES.round_trip s t chan ∧
        ∃ sv smid u,
          MES.link_entry cfg env chan endstopName s = .ok (sv, smid) ∧
          body smid = .error (e, u))) := by
  constructor
  · intro hname hchan
    have h := MES.link_session_spec cfg env env.activeExtruderStepper endstopName
      body s hne hchan hend hmq
    have hred : MES.with_linked_extruder cfg env extruderName endstopName body s =
        MES.link_session cfg env env.activeExtruderStepper endstopName body s := by
      unfold MES.with_linked_extruder
      rw [if_neg (not_ne_iff.mpr hname)]
    rw [hred]
    exact h
  · intro hres hchan
    have h := MES.link_session_spec cfg env chan endstopName body s hne hchan hend hmq
    have hred : MES.with_linked_stepper cfg env stepperName endstopName body s =
        MES.link_session cfg env chan endstopName body s := by
      unfold MES.with_linked_stepper
      rw [hres]
    rw [hred]
    exact h

/-- Witness for C1: a concrete session over each wrapper, with a borrowed
channel, a resolving endstop, a succeeding wrapped operation and a free
source actuator. -/
theorem c1_linked_session_round_trip_witness :
    (mesS.steppers ≠ [] ∧ MES.endstop_ok mesEnv (some "default") ∧
     MES.mq_resolvable mesEnv mesS.motionQueue ∧
     mesEnv.activeExtruderStepper ∉ mesS.steppers ∧
     mesEnv.manualSteppers "belt" = some 7 ∧ (7 : ℕ) ∉ mesS.steppers) ∧
    MES.round_trip mesS
      (MES.res_state (MES.with_linked_extruder mesCfg mesEnv "extruder" (some "default")
        (fun t => .ok t) mesS)) mesEnv.activeExtruderStepper ∧
    MES.round_trip mesS
      (MES.res_state (MES.with_linked_stepper mesCfg mesEnv "belt" (some "default")
        (fun t => .ok t) mesS)) 7 := by
  refine ⟨⟨by decide, ⟨1, rfl⟩, trivial, by decide, rfl, by decide⟩, ?_, ?_⟩
  · exact ((c1_linked_session_round_trip mesCfg mesEnv mesS (fun t => .ok t)
      "extruder" "belt" (some "default") 7 (by decide) ⟨1, rfl⟩ trivial).1
      rfl (by decide)).1 _ rfl
  · exact ((c1_linked_session_round_trip mesCfg mesEnv mesS (fun t => .ok t)
      "extruder" "belt" (some "default") 7 (by decide) ⟨1, rfl⟩ trivial).2
      rfl (by decide)).1 _ rfl

/-- **C2** (code-bug evaluation): calling `_with_linked_extruder` with the
active extruder but an endstop name that does not resolve raises
endstop-not-found *after* the stepper lists have been extended by the
borrowed channel and its kinematics and trapq have been swapped; the raise
happens before the `try`, so the `finally` restoration never runs and the
error escapes with all of those mutations still in place — contradicting the
claim that an endstop-not-found error leaves no state mutated. -/
theorem c2_endstop_not_found_leaves_mutations :
    MES.res_err (MES.with_linked_extruder mesCfg mesEnv "extruder" (some "missing")
        (fun t => .ok t) mesS) = some .endstopNotFound ∧
    (MES.res_state (MES.with_linked_extruder mesCfg mesEnv "extruder" (some "missing")
        (fun t => .ok t) mesS)).steppers = [0, 5] ∧
    (MES.res_state (MES.with_linked_extruder mesCfg mesEnv "extruder" (some "missing")
        (fun t => .ok t) mesS)).railSteppers = [0, 5] ∧
    (MES.res_state (MES.with_linked_extruder mesCfg mesEnv "extruder" (some "missing")
        (fun t => .ok t) mesS)).chanSk 5 = mesCfg.linkedMoveSk ∧
    (MES.res_state (MES.with_linked_extruder mesCfg mesEnv "extruder" (some "missing")
        (fun t => .ok t) mesS)).chanTrapq 5 = mesCfg.trapq ∧
    mesS.steppers = [0] ∧ mesS.chanSk 5 = 99 ∧ mesCfg.linkedMoveSk ≠ 99 := by
  decide

/-- **C4**: `sync_purge_belt` while already synced is a no-op (no calibration
change, no re-save of the rotation distance, no command issued);
`unsync_purge_belt` while not synced is a no-op with no configuration
mutation and no error; and a successful sync followed by unsync with no
intervening calibration change restores the purge-belt stepper's rotation
distance to exactly its pre-sync value, returning to the Free state. -/
theorem c4_sync_unsync_state_machine (cfg : PB.Cfg) (lh ew : ℝ) (s : PB.St) :
    (s.sync_status = true → PB.sync_purge_belt cfg lh ew s = .ok (s, [])) ∧
    (s.sync_status = false → PB.unsync_purge_belt s = (s, [])) ∧
    (s.sync_status = false →
      ∀ ea, PB.get_available_ea_label s.axisMap = some ea →
      ∃ s' evs, PB.sync_purge_belt cfg lh ew s = .ok (s', evs) ∧
        (PB.unsync_purge_belt s').1.rotationDist = s.rotationDist ∧
        (PB.unsync_purge_belt s').1.sync_status = false) := by
  refine ⟨?_, ?_, ?_⟩
  · intro h
    unfold PB.sync_purge_belt
    simp [h]
  · intro h
    unfold PB.unsync_purge_belt
    simp [h]
  · intro h ea hea
    refine ⟨_, _, PB.sync_purge_belt_ok cfg lh ew s ea h hea, ?_, ?_⟩
    · rw [PB.unsync_purge_belt_synced _ ea rfl rfl]
    · rw [PB.unsync_purge_belt_synced _ ea rfl rfl]

/-- Witness for C4 at a synced state, a free state, and a full sync-unsync
round trip from the free state over the standard axis map. -/
theorem c4_sync_unsync_state_machine_witness :
    (pbSynced.sync_status = true ∧
      PB.sync_purge_belt pbCfg 1 1 pbSynced = .ok (pbSynced, [])) ∧
    (pbFree.sync_status = false ∧ PB.unsync_purge_belt pbFree = (pbFree, [])) ∧
    (PB.get_available_ea_label pbFree.axisMap = some 'A' ∧
      ∃ s' evs, PB.sync_purge_belt pbCfg 1 1 pbFree = .ok (s', evs) ∧
        (PB.unsync_purge_belt s').1.rotationDist = pbFree.rotationDist ∧
        (PB.unsync_purge_belt s').1.sync_status = false) :=
  ⟨⟨rfl, (c4_sync_unsync_state_machine pbCfg 1 1 pbSynced).1 rfl⟩,
   ⟨rfl, (c4_sync_unsync_state_machine pbCfg 1 1 pbFree).2.1 rfl⟩,
   ⟨by decide, (c4_sync_unsync_state_machine pbCfg 1 1 pbFree).2.2 rfl 'A' (by decide)⟩⟩

/-- **C5** (code-bug evaluation): with configured `extrude_speed = 5` and
filament diameter 2 (cross-section area exactly pi), requesting
`EXTRUSION_SPEED=10` with no flow rate yields flow rate `5*pi` and speed `5`:
line 158 overwrites the value just read with the configured default, so the
explicit request does not determine the flow rate (the claim requires speed
10 and flow `10*pi`, and `5 ≠ 10`). -/
theorem c5_extrusion_speed_request_overwritten :
    PB.derive_flow pbCfg none (some 10) = (5 * Real.pi, 5) ∧
    (5 : ℝ) ≠ 10 ∧ 5 * Real.pi ≠ 10 * Real.pi := by
  refine ⟨?_, by norm_num, ?_⟩
  · unfold PB.derive_flow PB.cross_section_area
    simp only [pbCfg, Prod.mk.injEq]
    exact ⟨by ring, trivial⟩
  · intro h
    have h5 : (5 : ℝ) = 10 := mul_right_cancel₀ Real.pi_ne_zero h
    norm_num at h5

/-- **C6** (amended): the `PAUSE_QTY` derivation uses an explicit request as
given; otherwise, when the derived purged length exceeds
`purged_length_section_max`, it uses `⌈purged_length / max⌉` — a count under
which every one of the `pause_qty + 1` segments stays at or under the
maximum, though one more than the minimum such count — and otherwise the
configured default; in the concrete case purge length 500, width 0.4, height
0.4, diameter 1.75, max 200, the derived value equals (hence is at least)
`⌈purged_length / 200⌉`. -/
theorem c6_pause_qty_derivation (cfg : PB.Cfg) (purged : ℝ) :
    (∀ p : ℤ, PB.derive_pause_qty cfg (some p) purged = p) ∧
    (purged > cfg.purged_length_section_max → 0 < cfg.purged_length_section_max →
      PB.derive_pause_qty cfg none purged =
        ⌈purged / cfg.purged_length_section_max⌉ ∧
      purged / ((⌈purged / cfg.purged_length_section_max⌉ : ℝ) + 1) ≤
        cfg.purged_length_section_max) ∧
    (¬purged > cfg.purged_length_section_max →
      PB.derive_pause_qty cfg none purged = cfg.pause_qty) ∧
    PB.derive_pause_qty pbCfgD none
        ((PB.derive_length_volume pbCfgD none (some 500)).2 / (0.4 * 0.4)) ≥
      ⌈((PB.derive_length_volume pbCfgD none (some 500)).2 / (0.4 * 0.4)) /
        (200 : ℝ)⌉ := by
  have hmain : ∀ (M : ℝ), purged > M → 0 < M →
      purged / ((⌈purged / M⌉ : ℝ) + 1) ≤ M := by
    intro M hgt hpos
    have hx : (1 : ℝ) < purged / M := (one_lt_div hpos).mpr hgt
    have hceil : (purged / M) ≤ (⌈purged / M⌉ : ℝ) := Int.le_ceil _
    have hc1 : (0 : ℝ) < (⌈purged / M⌉ : ℝ) + 1 := by linarith
    rw [div_le_iff₀ hc1]
    have h2 : purged / M ≤ (⌈purged / M⌉ : ℝ) + 1 := by linarith
    have h3 : purged / M * M ≤ ((⌈purged / M⌉ : ℝ) + 1) * M :=
      mul_le_mul_of_nonneg_right h2 hpos.le
    rw [div_mul_cancel₀ _ hpos.ne'] at h3
    linarith
  refine ⟨fun p => rfl, ?_, ?_, ?_⟩
  · intro hgt hpos
    refine ⟨?_, hmain _ hgt hpos⟩
    unfold PB.derive_pause_qty
    rw [if_pos hgt]
  · intro hle
    unfold PB.derive_pause_qty
    rw [if_neg hle]
  · have hgt : (PB.derive_length_volume pbCfgD none (some 500)).2 / (0.4 * 0.4) >
        pbCfgD.purged_length_section_max := by
      show Real.pi / 4 * (1.75 : ℝ) ^ 2 * 500 / (0.4 * 0.4) > 200
      rw [gt_iff_lt, lt_div_iff₀ (by norm_num : (0.4 : ℝ) * 0.4 > 0)]
      nlinarith [Real.pi_gt_three]
    show (if (PB.derive_length_volume pbCfgD none (some 500)).2 / (0.4 * 0.4) >
        pbCfgD.purged_length_section_max
      then ⌈(PB.derive_length_volume pbCfgD none (some 500)).2 / (0.4 * 0.4) /
        pbCfgD.purged_length_section_max⌉
      else pbCfgD.pause_qty) ≥
        ⌈(PB.derive_length_volume pbCfgD none (some 500)).2 / (0.4 * 0.4) / (200 : ℝ)⌉
    rw [if_pos hgt]
    have h200 : pbCfgD.purged_length_section_max = (200 : ℝ) := rfl
    rw [h200]

/-- **C6** counterexample: with max 200 and derived purged length `100*pi`
(purge length 100, diameter 2, width 1, height 1), the code derives pause
quantity `⌈100*pi/200⌉ = 2`, yet pause quantity `1` already keeps both
segments at or under the maximum (`50*pi ≤ 200`), and `1 < 2` — so the
derived value is not the minimum integer the claim states. -/
theorem c6_pause_qty_not_minimal :
    PB.derive_pause_qty pbCfg none (100 * Real.pi) = 2 ∧
    100 * Real.pi / ((1 : ℝ) + 1) ≤ 200 ∧ ((1 : ℤ) < 2) ∧
    100 * Real.pi = (PB.derive_length_volume pbCfg none (some 100)).2 / (1 * 1) := by
  have hpi3 := Real.pi_gt_three
  have hpi4 := Real.pi_le_four
  refine ⟨?_, by nlinarith, by norm_num, ?_⟩
  · show (if (100 : ℝ) * Real.pi > pbCfg.purged_length_section_max
      then ⌈100 * Real.pi / pbCfg.purged_length_section_max⌉
      else pbCfg.pause_qty) = 2
    rw [if_pos (show (100 : ℝ) * Real.pi > pbCfg.purged_length_section_max by
      show (100 : ℝ) * Real.pi > 200
      nlinarith)]
    have harg : (100 : ℝ) * Real.pi / pbCfg.purged_length_section_max = Real.pi / 2 := by
      show (100 : ℝ) * Real.pi / 200 = Real.pi / 2
      ring
    rw [harg, Int.ceil_eq_iff]
    constructor
    · push_cast
      linarith
    · push_cast
      linarith
  · show (100 : ℝ) * Real.pi =
      Real.pi / 4 * (2 : ℝ) ^ 2 * 100 / (1 * 1)
    ring

/-- Witness for C6 at purged length `100*pi` over a maximum of 200. -/
theorem c6_pause_qty_derivation_witness :
    ((100 * Real.pi > pbCfg.purged_length_section_max ∧
      (0 : ℝ) < pbCfg.purged_length_section_max) ∧
     PB.derive_pause_qty pbCfg (some 3) (100 * Real.pi) = 3) ∧
    (PB.derive_pause_qty pbCfg none (100 * Real.pi) =
      ⌈100 * Real.pi / pbCfg.purged_length_section_max⌉ ∧
     100 * Real.pi / ((⌈100 * Real.pi / pbCfg.purged_length_section_max⌉ : ℝ) + 1) ≤
      pbCfg.purged_length_section_max) := by
  have hgt : (100 : ℝ) * Real.pi > pbCfg.purged_length_section_max := by
    show (100 : ℝ) * Real.pi > 200
    nlinarith [Real.pi_gt_three]
  have hpos : (0 : ℝ) < pbCfg.purged_length_section_max := by norm_num [pbCfg]
  exact ⟨⟨⟨hgt, hpos⟩, (c6_pause_qty_derivation pbCfg (100 * Real.pi)).1 3⟩,
         (c6_pause_qty_derivation pbCfg (100 * Real.pi)).2.1 hgt hpos⟩

/-- **C9** (amended): each sync allocates exactly one coordinate letter —
appended to the axis map — chosen deterministically as the first uppercase
letter outside the reserved set `{X, Y, Z, E, F, N}` and not currently a key
of the g-code axis map; each unsync releases exactly that letter; and when no
free letter exists the sync raises an error instead of proceeding to the
remap, leaving the sync-status flag, the allocated axis index and the axis
map unchanged — though the stepper's rotation distance has already been
rescaled and the saved pre-sync slot overwritten when the error is raised. -/
theorem c9_axis_letter_allocation (cfg : PB.Cfg) (lh ew : ℝ) (s : PB.St)
    (m : List (Char × ℕ)) :
    (PB.get_available_ea_label m =
      (PB.ascii_uppercase.filter (fun c =>
        decide (c ∉ (['X', 'Y', 'Z', 'E', 'F', 'N'] : List Char) ∧
                c ∉ m.map Prod.fst))).head?) ∧
    (s.sync_status = false → ∀ ea, PB.get_available_ea_label s.axisMap = some ea →
      ∃ s' evs, PB.sync_purge_belt cfg lh ew s = .ok (s', evs) ∧
        s'.axisMap = s.axisMap ++ [(ea, s.axisMap.length)] ∧
        s'.eaLetter = some ea) ∧
    (s.sync_status = true → ∀ ea, s.eaLetter = some ea →
      (PB.unsync_purge_belt s).1.axisMap = s.axisMap.filter (fun p => p.1 ≠ ea) ∧
      (PB.unsync_purge_belt s).1.eaLetter = none) ∧
    (s.sync_status = false → PB.get_available_ea_label s.axisMap = none →
      ∃ t, PB.sync_purge_belt cfg lh ew s = .error (.noFreeAxisLabel, t) ∧
        t.sync_status = s.sync_status ∧ t.eaIndex = s.eaIndex ∧
        t.axisMap = s.axisMap ∧ t.lastRotationDist = s.rotationDist ∧
        t.rotationDist = PB.calc_purge_belt_rotation_distance_synced cfg lh ew
          { s with lastRotationDist := s.rotationDist }) := by
  refine ⟨PB.find_ea_label_eq_filter _ _, ?_, ?_, ?_⟩
  · intro hsync ea hea
    exact ⟨_, _, PB.sync_purge_belt_ok cfg lh ew s ea hsync hea, rfl, rfl⟩
  · intro hsync ea hlet
    rw [PB.unsync_purge_belt_synced s ea hsync hlet]
    exact ⟨rfl, rfl⟩
  · intro hsync hnone
    exact ⟨_, PB.sync_purge_belt_exhausted cfg lh ew s hsync hnone,
      rfl, rfl, rfl, rfl, rfl⟩

/-- **C9** counterexample: at a free state whose axis map uses every
allocatable letter (rotation distance 7, saved pre-sync slot 0), sync raises
*no-free-axis-label*, yet the error state's saved pre-sync slot already holds
7 — the state is not unchanged, refuting the claim's "leaving no state
mutated" reading of the exhaustion path. -/
theorem c9_exhaustion_mutates_before_error :
    PB.result_err (PB.sync_purge_belt pbCfg 1 1 pbFull) = some .noFreeAxisLabel ∧
    (PB.result_err_state (PB.sync_purge_belt pbCfg 1 1 pbFull)).map
      PB.St.lastRotationDist = some 7 ∧
    pbFull.lastRotationDist = 0 ∧ ((7 : ℝ) ≠ 0) := by
  have hred := PB.sync_purge_belt_exhausted pbCfg 1 1 pbFull rfl (by decide)
  rw [hred]
  exact ⟨rfl, rfl, rfl, by norm_num⟩

/-- Witness for C9: allocation of `A` over the standard map, release of `A`
from the synced state, and the exhaustion error over the full map. -/
theorem c9_axis_letter_allocation_witness :
    ((pbFree.sync_status = false ∧
      PB.get_available_ea_label pbFree.axisMap = some 'A') ∧
     ∃ s' evs, PB.sync_purge_belt pbCfg 1 1 pbFree = .ok (s', evs) ∧
       s'.axisMap = pbFree.axisMap ++ [('A', pbFree.axisMap.length)] ∧
       s'.eaLetter = some 'A') ∧
    ((pbSynced.sync_status = true ∧ pbSynced.eaLetter = some 'A') ∧
     (PB.unsync_purge_belt pbSynced).1.axisMap =
        pbSynced.axisMap.filter (fun p => p.1 ≠ 'A') ∧
     (PB.unsync_purge_belt pbSynced).1.eaLetter = none) ∧
    ((pbFull.sync_status = false ∧
      PB.get_available_ea_label pbFull.axisMap = none) ∧
     ∃ t, PB.sync_purge_belt pbCfg 1 1 pbFull = .error (.noFreeAxisLabel, t) ∧
       t.sync_status = pbFull.sync_status ∧ t.eaIndex = pbFull.eaIndex ∧
       t.axisMap = pbFull.axisMap ∧ t.lastRotationDist = pbFull.rotationDist ∧
       t.rotationDist = PB.calc_purge_belt_rotation_distance_synced pbCfg 1 1
         { pbFull with lastRotationDist := pbFull.rotationDist }) :=
  ⟨⟨⟨rfl, by decide⟩,
    (c9_axis_letter_allocation pbCfg 1 1 pbFree stdAxisMap).2.1 rfl 'A' (by decide)⟩,
   ⟨⟨rfl, rfl⟩,
    (c9_axis_letter_allocation pbCfg 1 1 pbSynced stdAxisMap).2.2.1 rfl 'A' rfl⟩,
   ⟨⟨rfl, by decide⟩,
    (c9_axis_letter_allocation pbCfg 1 1 pbFull stdAxisMap).2.2.2 rfl (by decide)⟩⟩

/-- **C7**: from a clean state (Free, standard axis map) and `pause_qty = p
≥ 0`, the purge cycle emits exactly the expected trace: after the park
travel it executes the per-segment sequence — approach to purge height
`purge_belt_z + layer_height`, sync, extrude `purge_length / (p+1)` on the
extrusion axis and the registered axis, unsync, retract while commanding the
belt forward by the retract-travel distance, return to park Z — exactly
`p + 1` times, with a dwell of `pause_time` after each segment except the
last (the trace holds exactly `p` dwells), followed by the outfeed and the
optional restore move. -/
theorem c7_purge_cycle_segment_sequence (cfg : PB.Cfg)
    (plen lh ew es pt : ℝ) (pq : ℤ) (s : PB.St)
    (h1 : s.sync_status = false) (h2 : s.axisMap = stdAxisMap)
    (h3 : s.eaLetter = none) (hpq : 0 ≤ pq) :
    (∃ sf, PB.purge_cycle cfg plen lh ew es pq pt s =
      .ok (sf, PB.cycle_expected_trace cfg plen lh es pt pq s)) ∧
    PB.count_dwell (PB.cycle_expected_trace cfg plen lh es pt pq s) = pq.toNat := by
  refine ⟨PB.purge_cycle_clean cfg plen lh ew es pt pq s h1 h2 h3 hpq, ?_⟩
  unfold PB.cycle_expected_trace
  simp only []
  rw [PB.count_dwell_append, PB.count_dwell_append, PB.count_dwell_append,
    PB.count_dwell_segs]
  have hpark : PB.count_dwell [PB.Ev.thMove
      { x := cfg.park_pos_x, y := cfg.park_pos_y, z := cfg.park_pos_z
        e := s.toolheadPos.e, extra := fun _ => 0 } cfg.travel_speed,
      PB.Ev.waitMoves] = 0 := rfl
  have houtfeed : PB.count_dwell [PB.Ev.beltMove
      (PB.segs_expected_belt cfg (pq + 1).toNat s.beltPos +
        cfg.purge_belt_outfeed_length) cfg.belt_velocity cfg.belt_accel,
      PB.Ev.waitMoves] = 0 := rfl
  rw [hpark, houtfeed]
  have hrest : PB.count_dwell (if cfg.return_to_start_pos then
      [PB.Ev.thMove (PB.segs_expected_pos cfg (cfg.purge_belt_z + lh)
        (plen / ((pq : ℝ) + 1)) 4 (pq + 1).toNat
        { x := cfg.park_pos_x, y := cfg.park_pos_y, z := cfg.park_pos_z
          e := s.toolheadPos.e, extra := fun _ => 0 }) cfg.travel_speed,
       PB.Ev.waitMoves]
      else []) = 0 := by
    cases cfg.return_to_start_pos <;> rfl
  rw [hrest]
  omega

/-- Witness for C7: the claim's `PURGE_LENGTH=100 PAUSE_QTY=1 PAUSE_TIME=2`
scenario over the clean concrete state — two segments of `100/(1+1) = 50`
each and exactly one dwell. -/
theorem c7_purge_cycle_segment_sequence_witness :
    (pbFree.sync_status = false ∧ pbFree.axisMap = stdAxisMap ∧
     pbFree.eaLetter = none ∧ (0 : ℤ) ≤ 1) ∧
    (∃ sf, PB.purge_cycle pbCfg 100 1 1 5 1 2 pbFree =
      .ok (sf, PB.cycle_expected_trace pbCfg 100 1 5 2 1 pbFree)) ∧
    PB.count_dwell (PB.cycle_expected_trace pbCfg 100 1 5 2 1 pbFree) =
      (1 : ℤ).toNat :=
  ⟨⟨rfl, rfl, rfl, by decide⟩,
   (c7_purge_cycle_segment_sequence pbCfg 100 1 1 5 2 1 pbFree rfl rfl rfl
     (by decide)).1,
   (c7_purge_cycle_segment_sequence pbCfg 100 1 1 5 2 1 pbFree rfl rfl rfl
     (by decide)).2⟩

/-- **C10**: the dedicated `pause_qty == 0` branch of `purge_cycle` and the
general pause-loop branch are equivalent — for every state, the final state
and the sequence of toolhead moves, belt moves, sync/unsync commands and
waits computed by the dedicated branch equal those of one loop iteration
with segment length the full purge length and no dwell. -/
theorem c10_zero_branch_equals_one_loop_iteration (cfg : PB.Cfg)
    (purge_height purge_length extrusion_speed pause_time layer_height
      extrusion_width : ℝ) (s : PB.St) :
    PB.purge_zero cfg purge_height purge_length extrusion_speed layer_height
        extrusion_width s =
      PB.purge_loop cfg purge_height purge_length extrusion_speed pause_time
        layer_height extrusion_width 0 [0] s :=
  PB.purge_zero_eq_loop cfg purge_height purge_length extrusion_speed
    pause_time layer_height extrusion_width s

/-- **C8** (code-bug evaluation): run `purge_cycle` with purge length 50,
`pause_qty = 0`, `return_to_start_pos` configured, park position x = y = 10,
from initial toolhead position (3, 4, 5, 6).  The belt is commanded forward
by the retract-travel distance (target 10) and then by the outfeed length
(target 110, the true part of the claim), but every toolhead move of the
cycle — including the final "restore" move — targets x = 10, the park
position: `restore_pos` assigns the initial position to `self.gcode` instead
of `self.gcode_move` (line 180) and then moves to
`gcode_move.last_position`, so the toolhead is never moved back to the
initial x = 3 the claim requires. -/
theorem c8_restore_targets_park_not_initial :
    PB.th_move_xs (PB.res_trace (PB.purge_cycle pbCfg 50 1 1 5 0 1 pbFree)) =
      [10, 10, 10, 10, 10, 10] ∧
    PB.belt_targets (PB.res_trace (PB.purge_cycle pbCfg 50 1 1 5 0 1 pbFree)) =
      [10, 110] ∧
    pbFree.toolheadPos.x = 3 ∧ ((10 : ℝ) ≠ 3) := by
  obtain ⟨sf, hcyc⟩ :=
    PB.purge_cycle_clean pbCfg 50 1 1 5 1 0 pbFree rfl rfl rfl (by decide)
  rw [hcyc]
  refine ⟨?_, ?_, rfl, by norm_num⟩
  · simp [PB.res_trace, PB.cycle_expected_trace, PB.segs_expected,
      PB.seg_expected_events, PB.seg_expected_pos, PB.segs_expected_pos,
      PB.segs_expected_belt, PB.th_move_xs, PB.GPos.set, PB.GPos.get,
      pbCfg, pbFree, pbPos0]
  · simp [PB.res_trace, PB.cycle_expected_trace, PB.segs_expected,
      PB.seg_expected_events, PB.seg_expected_pos, PB.segs_expected_pos,
      PB.segs_expected_belt, PB.belt_targets, PB.GPos.set, PB.GPos.get,
      pbCfg, pbFree, pbPos0]
    norm_num
